import Mathlib

/-!
Shallow embedding of the return/signal computation engine and the SIP
projection calculator of `src/sip_advisior.py`, together with theorems
settling the specification claims about them.

Timestamps are modelled as integers (`Int`), NAV values and money amounts
as exact rationals (`ℚ`).  Python code that can raise an exception is
modelled as `Except`-valued.
-/

namespace SIPAdvisor

/-- Buy/Hold/Sell recommendation, the possible values of the string
variable `signal` at line 160 of `src/sip_advisior.py`. -/
inductive Signal where
  | Buy
  | Hold
  | Sell
deriving DecidableEq, Repr

/-- Line 160: `signal = "Buy" if selected_return > 14 else "Hold" if
selected_return > 10 else "Sell"`. -/
def signal (selected_return : ℚ) : Signal :=
  if selected_return > 14 then Signal.Buy
  else if selected_return > 10 then Signal.Hold
  else Signal.Sell

/-- One NAV observation: a row of the `navs` dataframe after the
conversions at lines 133-134 (`date` to a timestamp, `nav` to a number). -/
structure PricePoint where
  date : Int
  nav  : ℚ
deriving DecidableEq, Repr

/-- Comparison of two points by their `date` column, the sort key of
`navs.sort_values('date')` at line 135. -/
def dateLe (p q : PricePoint) : Bool := p.date ≤ q.date

/-- Line 135: `navs = navs.sort_values('date')` — sort ascending by date.
No deduplication is performed anywhere in the script. -/
def sortNavs (navs : List PricePoint) : List PricePoint :=
  navs.mergeSort dateLe

/-- Line 153: `navs['date'].max()` — the maximum date occurring in the
series (`0` on the empty series, which the script never queries: the
surrounding code only runs when the series has at least 30 rows). -/
def maxDate : List PricePoint → Int
  | [] => 0
  | p :: ps => ps.foldl (fun m q => max m q.date) p.date

/-- Lines 152-156: for a concrete period, `start_date = navs['date'].max()
- period_mapping[return_period]` and `navs_filtered = navs[navs['date'] >=
start_date]`; for `"till date"` (`none` here, since-inception),
`navs_filtered = navs.copy()`.  The window duration is modelled as the
integer subtracted from the latest timestamp. -/
def selectWindow (navs : List PricePoint) (window : Option Int) : List PricePoint :=
  match window with
  | some dur => navs.filter fun p => decide (maxDate navs - dur ≤ p.date)
  | none => navs

/-- Placeholder row used to totalise first/last row access; the script
only reads those rows after checking `len(navs_filtered) > 1`. -/
def defaultPoint : PricePoint := ⟨0, 0⟩

/-- Line 159: `selected_return = (navs_filtered.iloc[-1]['nav'] -
navs_filtered.iloc[0]['nav']) / navs_filtered.iloc[0]['nav'] * 100`. -/
def selected_return (navs_filtered : List PricePoint) : ℚ :=
  ((navs_filtered.getLastD defaultPoint).nav - (navs_filtered.headD defaultPoint).nav)
    / (navs_filtered.headD defaultPoint).nav * 100

/-- The two "Not enough data" outcomes of the script: line 183 (`"Not
enough data for the selected period."`, when the filtered sub-series has
fewer than 2 points) and line 185 (`"Not enough data to calculate
signals."`, when the raw series has fewer than 30 rows). -/
inductive EngineError where
  | notEnoughDataForPeriod
  | notEnoughDataForSignals
deriving DecidableEq, Repr

/-- Lines 152-183: window selection followed by the return/signal
computation, on an already sorted series.  `if len(navs_filtered) > 1:`
guards the computation; otherwise the warning at line 183 is shown and no
return or signal is produced. -/
def selectAndCompute (navs : List PricePoint) (window : Option Int) :
    Except EngineError (ℚ × Signal) :=
  let navs_filtered := selectWindow navs window
  if 1 < navs_filtered.length then
    let r := selected_return navs_filtered
    Except.ok (r, signal r)
  else
    Except.error EngineError.notEnoughDataForPeriod

/-- Lines 131-185: the full pipeline on the fetched series.  Line 131
(`if 'data' in detail and len(detail['data']) >= 30:`) gates everything on
the raw series having at least 30 entries; only then is the series sorted
(line 135) and the window computation run. -/
def computeSignal (data : List PricePoint) (window : Option Int) :
    Except EngineError (ℚ × Signal) :=
  if 30 ≤ data.length then
    selectAndCompute (sortNavs data) window
  else
    Except.error EngineError.notEnoughDataForSignals

/-- The only failure of the SIP calculator block: Python raises
`ZeroDivisionError` when the divisor of `/` is zero. -/
inductive SipError where
  | zeroDivisionError
deriving DecidableEq, Repr

/-- The three outputs printed by the SIP calculator (lines 65-67). -/
structure SipProjection where
  future_value : ℚ
  invested : ℚ
  gain : ℚ
deriving DecidableEq, Repr

/-- Lines 59-63 of `src/sip_advisior.py`:
`n_months = sip_years * 12`; `monthly_rate = expected_return / 100 / 12`;
`future_value = sip_amt * (((1 + monthly_rate) ** n_months - 1) * (1 +
monthly_rate)) / monthly_rate`; `invested = sip_amt * n_months`;
`gain = future_value - invested`.  There is no input validation and no
special case for a zero rate; the final division raises Python's
`ZeroDivisionError` when `monthly_rate` is zero, modelled by the
`Except.error` branch.  `sip_years` comes from an integer slider, hence
`ℕ`. -/
def sipCalc (sip_amt : ℚ) (sip_years : ℕ) (expected_return : ℚ) :
    Except SipError SipProjection :=
  let n_months : ℕ := sip_years * 12
  let monthly_rate : ℚ := expected_return / 100 / 12
  if monthly_rate = 0 then
    Except.error SipError.zeroDivisionError
  else
    let future_value :=
      sip_amt * (((1 + monthly_rate) ^ n_months - 1) * (1 + monthly_rate)) / monthly_rate
    let invested := sip_amt * (n_months : ℚ)
    Except.ok ⟨future_value, invested, future_value - invested⟩

/-- Concrete sub-series whose first and last navs agree (for claim C2). -/
def navsEq : List PricePoint := [⟨0, 10⟩, ⟨1, 10⟩]

/-- Concrete three-point series spanning a 7-day window (for claim C3). -/
def navs3 : List PricePoint := [⟨0, 10⟩, ⟨5, 11⟩, ⟨10, 12⟩]

/-- Concrete input containing two points with the same timestamp (for
claim C8). -/
def dupNavs : List PricePoint := [⟨1, 10⟩, ⟨1, 20⟩]

/-- The `future_value` of line 61 instantiated at the scenario
`sip_amt = 1000`, `sip_years = 10`, `expected_return = 12`, i.e.
`monthly_rate = 1/100` and `n_months = 120` (for claim C5). -/
def fv1000 : ℚ := 1000 * (((1 + 1 / 100) ^ 120 - 1) * (1 + 1 / 100)) / (1 / 100)

theorem headD_eq_head (l : List PricePoint) (hne : l ≠ []) :
    l.headD defaultPoint = l.head hne := by
  cases l with
  | nil => exact absurd rfl hne
  | cons a t => rfl

theorem getLastD_eq_getLast (l : List PricePoint) (hne : l ≠ []) :
    l.getLastD defaultPoint = l.getLast hne := by
  cases l with
  | nil => exact absurd rfl hne
  | cons a t => simp [List.getLastD_eq_getLast?, List.getLast?_eq_getLast]

/-- C1: for every rational `pct_return`, `signal` maps it to exactly one
of Buy/Hold/Sell by strict thresholds: `pct_return > 14` yields Buy,
`10 < pct_return ≤ 14` yields Hold, `pct_return ≤ 10` yields Sell; in
particular `signal 14 = Hold` and `signal 10 = Sell`. -/
theorem signal_thresholds (r : ℚ) :
    (14 < r → signal r = Signal.Buy) ∧
    (10 < r → r ≤ 14 → signal r = Signal.Hold) ∧
    (r ≤ 10 → signal r = Signal.Sell) ∧
    signal 14 = Signal.Hold ∧ signal 10 = Signal.Sell := by
  refine ⟨?_, ?_, ?_, by decide, by decide⟩
  · intro h
    simp [signal, h]
  · intro h1 h2
    simp [signal, h1, not_lt.mpr h2]
  · intro h
    have h14 : ¬ (14 < r) := by
      intro hc
      have : (14 : ℚ) < 10 := hc.trans_le h
      norm_num at this
    simp [signal, h14, not_lt.mpr h]

/-- Witness for C1 at the concrete returns 20, 12 and 5. -/
theorem signal_thresholds_witness :
    signal 20 = Signal.Buy ∧ signal 12 = Signal.Hold ∧ signal 5 = Signal.Sell :=
  ⟨(signal_thresholds 20).1 (by norm_num),
   (signal_thresholds 12).2.1 (by norm_num) (by norm_num),
   (signal_thresholds 5).2.2.1 (by norm_num)⟩

/-- C2: for every sub-series with at least 2 points, ordered ascending by
timestamp, `selected_return` is `(end_value - start_value) / start_value *
100` where `start_value` is the nav of the FIRST point and `end_value` the
nav of the LAST point of the sub-series (not min/max values); in
particular when they agree the return is `0` and its signal is Sell. -/
theorem selected_return_first_last (ss : List PricePoint)
    (h2 : 2 ≤ ss.length)
    (hsort : ss.Pairwise (fun a b => a.date ≤ b.date)) :
    ∃ hne : ss ≠ [],
      selected_return ss =
        ((ss.getLast hne).nav - (ss.head hne).nav) / (ss.head hne).nav * 100 ∧
      ((ss.head hne).nav = (ss.getLast hne).nav →
        selected_return ss = 0 ∧ signal (selected_return ss) = Signal.Sell) := by
  have hne : ss ≠ [] := by
    intro h
    subst h
    simp at h2
  have hh : ss.headD defaultPoint = ss.head hne := headD_eq_head ss hne
  have hl : ss.getLastD defaultPoint = ss.getLast hne := getLastD_eq_getLast ss hne
  refine ⟨hne, ?_, ?_⟩
  · simp only [selected_return]
    rw [hh, hl]
  · intro heq
    have hval : selected_return ss = 0 := by
      simp only [selected_return]
      rw [hh, hl, heq]
      simp
    refine ⟨hval, ?_⟩
    rw [hval]
    decide

/-- Witness for C2 on the concrete equal-ends series `navsEq`. -/
theorem selected_return_first_last_witness :
    selected_return navsEq = 0 ∧ signal (selected_return navsEq) = Signal.Sell := by
  obtain ⟨hne, _, hz⟩ := selected_return_first_last navsEq (by decide) (by decide)
  exact hz rfl

theorem foldl_max_eq_getLast :
    ∀ (ps : List PricePoint) (p : PricePoint),
      (p :: ps).Pairwise (fun a b => a.date ≤ b.date) →
      ps.foldl (fun m q => max m q.date) p.date =
        ((p :: ps).getLast (List.cons_ne_nil p ps)).date := by
  intro ps
  induction ps with
  | nil =>
      intro p _
      simp [List.getLast]
  | cons q qs ih =>
      intro p hp
      have hpq : p.date ≤ q.date :=
        (List.pairwise_cons.mp hp).1 q (List.mem_cons_self q qs)
      have hq : (q :: qs).Pairwise (fun a b => a.date ≤ b.date) :=
        (List.pairwise_cons.mp hp).2
      have hstep : (q :: qs).foldl (fun m r => max m r.date) p.date
          = qs.foldl (fun m r => max m r.date) (max p.date q.date) := by
        simp [List.foldl_cons]
      rw [hstep, max_eq_right hpq, ih q hq]
      rw [List.getLast_cons (List.cons_ne_nil q qs)]

theorem maxDate_eq_getLast (navs : List PricePoint) (hne : navs ≠ [])
    (hsort : navs.Pairwise (fun a b => a.date ≤ b.date)) :
    maxDate navs = (navs.getLast hne).date := by
  cases navs with
  | nil => exact absurd rfl hne
  | cons p ps => exact foldl_max_eq_getLast ps p hsort

theorem filter_ge_suffix (c : Int) :
    ∀ (l : List PricePoint), l.Pairwise (fun a b => a.date ≤ b.date) →
      l.filter (fun p => decide (c ≤ p.date)) <:+ l := by
  intro l
  induction l with
  | nil =>
      intro _
      simp
  | cons p t ih =>
      intro hs
      by_cases hc : c ≤ p.date
      · have hall : ∀ q ∈ p :: t, (fun r => decide (c ≤ r.date)) q = true := by
          intro q hq
          rcases List.mem_cons.mp hq with h | h
          · subst h
            simpa using hc
          · have hpq : p.date ≤ q.date := (List.pairwise_cons.mp hs).1 q h
            simp only [decide_eq_true_eq]
            omega
        rw [List.filter_eq_self.mpr hall]
      · have hcons : (p :: t).filter (fun r => decide (c ≤ r.date))
            = t.filter (fun r => decide (c ≤ r.date)) := by
          simp [List.filter_cons, hc]
        rw [hcons]
        exact ((ih (List.pairwise_cons.mp hs).2).trans (List.suffix_cons p t))

theorem getLast_of_suffix {l₁ l₂ : List PricePoint} (h : l₁ <:+ l₂)
    (h1 : l₁ ≠ []) (h2 : l₂ ≠ []) :
    l₂.getLast h2 = l₁.getLast h1 := by
  obtain ⟨pre, rfl⟩ := h
  rw [List.getLast_append]
  simp [h1]

/-- C3: for every valid series (at least 2 points, sorted ascending by
timestamp) and every nonnegative window duration that the series spans,
the window selection returns the points with `timestamp >= cutoff` for
`cutoff = maxDate - duration`; this is a contiguous suffix of the series,
the boundary is inclusive (every in-series point with timestamp `>=`
cutoff, in particular `=` cutoff, is kept), its first timestamp is `>=`
cutoff, its last timestamp equals the series' last timestamp, and the
since-inception selection keeps the whole series (equivalently, cutoff at
the first timestamp). -/
theorem selectWindow_spec (navs : List PricePoint) (dur : Int)
    (hsort : navs.Pairwise (fun a b => a.date ≤ b.date))
    (h2 : 2 ≤ navs.length) (hdur : 0 ≤ dur)
    (hspan : (navs.headD defaultPoint).date ≤ maxDate navs - dur) :
    ∃ (hne : navs ≠ []) (hne2 : selectWindow navs (some dur) ≠ []),
      selectWindow navs (some dur) =
        navs.filter (fun p => decide (maxDate navs - dur ≤ p.date)) ∧
      selectWindow navs (some dur) <:+ navs ∧
      (∀ p ∈ navs, maxDate navs - dur ≤ p.date → p ∈ selectWindow navs (some dur)) ∧
      (∀ p ∈ selectWindow navs (some dur), maxDate navs - dur ≤ p.date) ∧
      maxDate navs - dur ≤ ((selectWindow navs (some dur)).head hne2).date ∧
      ((selectWindow navs (some dur)).getLast hne2).date = (navs.getLast hne).date ∧
      selectWindow navs none = navs := by
  have hne : navs ≠ [] := by
    intro h
    subst h
    simp at h2
  have hfil : selectWindow navs (some dur) =
      navs.filter (fun p => decide (maxDate navs - dur ≤ p.date)) := rfl
  have hsuf : selectWindow navs (some dur) <:+ navs := by
    rw [hfil]
    exact filter_ge_suffix (maxDate navs - dur) navs hsort
  have hmem : ∀ p ∈ navs, maxDate navs - dur ≤ p.date →
      p ∈ selectWindow navs (some dur) := by
    intro p hp hd
    rw [hfil]
    exact List.mem_filter.mpr ⟨hp, by simpa using hd⟩
  have hmem2 : ∀ p ∈ selectWindow navs (some dur), maxDate navs - dur ≤ p.date := by
    intro p hp
    rw [hfil] at hp
    simpa using (List.mem_filter.mp hp).2
  have hlast_in : navs.getLast hne ∈ selectWindow navs (some dur) := by
    refine hmem (navs.getLast hne) (List.getLast_mem hne) ?_
    rw [maxDate_eq_getLast navs hne hsort]
    omega
  have hne2 : selectWindow navs (some dur) ≠ [] :=
    List.ne_nil_of_mem hlast_in
  refine ⟨hne, hne2, hfil, hsuf, hmem, hmem2, ?_, ?_, rfl⟩
  · exact hmem2 _ (List.head_mem hne2)
  · exact congrArg PricePoint.date (getLast_of_suffix hsuf hne2 hne).symm

/-- Witness for C3 on the concrete series `navs3` with duration 7
(cutoff 3): the selection is the suffix of the two points dated 5 and
10. -/
theorem selectWindow_spec_witness :
    selectWindow navs3 (some 7) <:+ navs3 ∧
    selectWindow navs3 (some 7) = [⟨5, 11⟩, ⟨10, 12⟩] := by
  obtain ⟨hne, hne2, hfil, hsuf, _⟩ :=
    selectWindow_spec navs3 7 (by decide) (by decide) (by decide) (by decide)
  exact ⟨hsuf, by decide⟩

/-- C4: whenever the selected sub-series has fewer than 2 points, the
engine fails with the insufficient-data error (the line 183 warning) and
produces no return/signal result — no shorter window is substituted and no
default 0% return appears; in particular a 1-point series with any
concrete (non-since-inception) window always fails this way. -/
theorem selectAndCompute_insufficient (navs : List PricePoint) (window : Option Int)
    (h : (selectWindow navs window).length < 2) :
    (selectAndCompute navs window = Except.error EngineError.notEnoughDataForPeriod ∧
      ∀ r sg, selectAndCompute navs window ≠ Except.ok (r, sg)) ∧
    ∀ (p : PricePoint) (dur : Int),
      selectAndCompute [p] (some dur) = Except.error EngineError.notEnoughDataForPeriod := by
  have herr : ∀ (l : List PricePoint) (w : Option Int),
      (selectWindow l w).length < 2 →
      selectAndCompute l w = Except.error EngineError.notEnoughDataForPeriod := by
    intro l w hl
    have hnot : ¬ (1 < (selectWindow l w).length) := by omega
    simp [selectAndCompute, hnot]
  refine ⟨⟨herr navs window h, ?_⟩, ?_⟩
  · intro r sg
    rw [herr navs window h]
    intro hc
    exact Except.noConfusion hc
  · intro p dur
    refine herr [p] (some dur) ?_
    have hle := List.length_filter_le (fun q => decide (maxDate [p] - dur ≤ q.date)) [p]
    simp only [selectWindow]
    simp only [List.length_cons, List.length_nil] at hle
    omega

/-- Witness for C4 on the concrete 1-point series `[⟨0, 10⟩]` with
duration 1. -/
theorem selectAndCompute_insufficient_witness :
    selectAndCompute [(⟨0, 10⟩ : PricePoint)] (some 1) =
      Except.error EngineError.notEnoughDataForPeriod :=
  ((selectAndCompute_insufficient [⟨0, 10⟩] (some 1) (by decide)).1).1

/-- C10: the pipeline computes a return and signal only when the raw
series has at least 30 entries; a series with between 2 and 29 points
(valid by the spec's at-least-2-points rule) is rejected with the "Not
enough data to calculate signals" outcome of line 185, and no result is
produced.  Conversely, with at least 30 entries the pipeline proceeds to
the sort and window computation. -/
theorem computeSignal_min30_gate (data : List PricePoint) (window : Option Int)
    (hlow : 2 ≤ data.length) (hhigh : data.length ≤ 29) :
    (computeSignal data window = Except.error EngineError.notEnoughDataForSignals ∧
      ∀ r sg, computeSignal data window ≠ Except.ok (r, sg)) ∧
    ∀ (data' : List PricePoint), 30 ≤ data'.length →
      computeSignal data' window = selectAndCompute (sortNavs data') window := by
  have hnot : ¬ (30 ≤ data.length) := by omega
  have herr : computeSignal data window
      = Except.error EngineError.notEnoughDataForSignals := by
    simp [computeSignal, hnot]
  refine ⟨⟨herr, ?_⟩, ?_⟩
  · intro r sg
    rw [herr]
    intro hc
    exact Except.noConfusion hc
  · intro d hd
    simp [computeSignal, hd]

/-- Witness for C10 on a concrete valid 2-point series. -/
theorem computeSignal_min30_gate_witness :
    computeSignal [(⟨0, 10⟩ : PricePoint), ⟨1, 11⟩] (some 1) =
      Except.error EngineError.notEnoughDataForSignals :=
  ((computeSignal_min30_gate [⟨0, 10⟩, ⟨1, 11⟩] (some 1) (by decide) (by decide)).1).1

/-- C5: for positive monthly amount, years and annual rate, the SIP
calculator computes `months = years * 12`, `monthly_rate = rate / 100 /
12`, the annuity-due future value `amt * (((1 + monthly_rate) ^ months -
1) * (1 + monthly_rate)) / monthly_rate`, `invested = amt * months` and
`gain = future_value - invested`; in the scenario `amt = 1000`,
`years = 10`, `rate = 12` this gives `months = 120`, `monthly_rate =
1/100`, `invested = 120000`, a future value in `[232339, 232340)` and a
gain in `[112339, 112340)`. -/
theorem sipCalc_annuity_due (amt rate : ℚ) (years : ℕ)
    (h1 : 0 < amt) (h2 : 0 < years) (h3 : 0 < rate) :
    (sipCalc amt years rate =
      Except.ok ⟨amt * (((1 + rate / 100 / 12) ^ (years * 12) - 1) * (1 + rate / 100 / 12))
          / (rate / 100 / 12),
        amt * ((years * 12 : ℕ) : ℚ),
        amt * (((1 + rate / 100 / 12) ^ (years * 12) - 1) * (1 + rate / 100 / 12))
          / (rate / 100 / 12) - amt * ((years * 12 : ℕ) : ℚ)⟩) ∧
    (10 * 12 = 120 ∧ (12 : ℚ) / 100 / 12 = 1 / 100 ∧ (1000 : ℚ) * ((120 : ℕ) : ℚ) = 120000) ∧
    (232339 ≤ fv1000 ∧ fv1000 < 232340 ∧
      112339 ≤ fv1000 - 120000 ∧ fv1000 - 120000 < 112340) := by
  have hrate : (rate / 100 / 12 : ℚ) ≠ 0 := by positivity
  refine ⟨by simp [sipCalc, hrate], ⟨by norm_num, by norm_num, by norm_num⟩, ?_⟩
  have hfv : fv1000 = 1000 * (((101 / 100 : ℚ) ^ 120 - 1) * (101 / 100)) * 100 := by
    rw [fv1000]
    norm_num
  rw [hfv]
  norm_num

/-- Witness for C5 at the scenario `amt = 1000`, `years = 10`,
`rate = 12`. -/
theorem sipCalc_annuity_due_witness :
    sipCalc 1000 10 12 =
      Except.ok ⟨1000 * (((1 + (12 : ℚ) / 100 / 12) ^ (10 * 12) - 1) * (1 + (12 : ℚ) / 100 / 12))
          / ((12 : ℚ) / 100 / 12),
        1000 * ((10 * 12 : ℕ) : ℚ),
        1000 * (((1 + (12 : ℚ) / 100 / 12) ^ (10 * 12) - 1) * (1 + (12 : ℚ) / 100 / 12))
          / ((12 : ℚ) / 100 / 12) - 1000 * ((10 * 12 : ℕ) : ℚ)⟩ :=
  (sipCalc_annuity_due 1000 12 10 (by norm_num) (by norm_num) (by norm_num)).1

/-- C6 counterexample: at `sip_amt = 500`, `sip_years = 2`,
`expected_return = 0` the calculator does NOT return `future_value =
invested = 12000` with zero gain; the unconditional division in the
annuity formula fails with a division-by-zero error. -/
theorem sipCalc_zero_rate_counterexample :
    sipCalc 500 2 0 = Except.error SipError.zeroDivisionError ∧
    sipCalc 500 2 0 ≠ Except.ok ⟨12000, 12000, 0⟩ := by
  have h : sipCalc 500 2 0 = Except.error SipError.zeroDivisionError := by
    simp [sipCalc]
  refine ⟨h, ?_⟩
  rw [h]
  intro hc
  exact Except.noConfusion hc

/-- C6 amended: the calculator has no special case for a zero monthly
rate: for every monthly amount and duration, `annual_rate_pct = 0` makes
the annuity formula's division fail with a division-by-zero error instead
of returning `monthly_amount * months`. -/
theorem sipCalc_zero_rate_fails (amt : ℚ) (years : ℕ) :
    sipCalc amt years 0 = Except.error SipError.zeroDivisionError := by
  simp [sipCalc]

/-- C7 counterexample: at `monthly_amount = -1000 ≤ 0` (years 10, rate 12)
the calculator raises no error at all — it succeeds, performing the full
computation on the non-positive input. -/
theorem sipCalc_no_validation_counterexample :
    (-1000 : ℚ) ≤ 0 ∧ (sipCalc (-1000) 10 12).isOk = true := by
  refine ⟨by norm_num, ?_⟩
  have h : ((12 : ℚ) / 100 / 12) ≠ 0 := by norm_num
  simp [sipCalc, h, Except.isOk, Except.toBool]

/-- C7 amended: the calculator performs no input validation: for every
input whose monthly rate is nonzero — including non-positive monthly
amounts and negative rates — it computes invested, future value and gain
by the same formulas and returns them without error. -/
theorem sipCalc_no_validation (amt rate : ℚ) (years : ℕ)
    (h : rate / 100 / 12 ≠ 0) :
    sipCalc amt years rate =
      Except.ok ⟨amt * (((1 + rate / 100 / 12) ^ (years * 12) - 1) * (1 + rate / 100 / 12))
          / (rate / 100 / 12),
        amt * ((years * 12 : ℕ) : ℚ),
        amt * (((1 + rate / 100 / 12) ^ (years * 12) - 1) * (1 + rate / 100 / 12))
          / (rate / 100 / 12) - amt * ((years * 12 : ℕ) : ℚ)⟩ := by
  simp [sipCalc, h]

/-- Witness for the C7 amended theorem at the non-positive monthly amount
`-1000`. -/
theorem sipCalc_no_validation_witness :
    sipCalc (-1000) 10 12 =
      Except.ok ⟨(-1000) * (((1 + (12 : ℚ) / 100 / 12) ^ (10 * 12) - 1) * (1 + (12 : ℚ) / 100 / 12))
          / ((12 : ℚ) / 100 / 12),
        (-1000) * ((10 * 12 : ℕ) : ℚ),
        (-1000) * (((1 + (12 : ℚ) / 100 / 12) ^ (10 * 12) - 1) * (1 + (12 : ℚ) / 100 / 12))
          / ((12 : ℚ) / 100 / 12) - (-1000) * ((10 * 12 : ℕ) : ℚ)⟩ :=
  sipCalc_no_validation (-1000) 12 10 (by norm_num)

/-- C8 counterexample: on the input `dupNavs`, whose two points share
timestamp 1, the first step of the engine (the sort of line 135) keeps
both points: the claim that at most one point per timestamp remains is
false. -/
theorem sortNavs_no_dedup_counterexample :
    (sortNavs dupNavs).countP (fun p => decide (p.date = 1)) = 2 ∧
    ¬ (∀ t : Int, (sortNavs dupNavs).countP (fun p => decide (p.date = t)) ≤ 1) := by
  have hperm : (sortNavs dupNavs).Perm dupNavs := List.mergeSort_perm dupNavs dateLe
  have hc : (sortNavs dupNavs).countP (fun p => decide (p.date = 1)) = 2 := by
    rw [hperm.countP_eq]
    decide
  refine ⟨hc, fun hall => ?_⟩
  have := hall 1
  omega

/-- C8 amended: the engine's first step sorts the raw series ascending by
timestamp, producing a permutation of the input — so duplicate timestamps
are all retained, not deduplicated. -/
theorem sortNavs_first_step (navs : List PricePoint) :
    (sortNavs navs).Pairwise (fun a b => a.date ≤ b.date) ∧
    (sortNavs navs).Perm navs := by
  constructor
  · have htrans : ∀ a b c : PricePoint,
        dateLe a b = true → dateLe b c = true → dateLe a c = true := by
      intro a b c hab hbc
      simp only [dateLe, decide_eq_true_eq] at hab hbc ⊢
      omega
    have htot : ∀ a b : PricePoint, (dateLe a b || dateLe b a) = true := by
      intro a b
      simp only [dateLe, Bool.or_eq_true, decide_eq_true_eq]
      omega
    have hs := @List.sorted_mergeSort PricePoint dateLe htrans htot navs
    refine hs.imp ?_
    intro a b hab
    simpa [dateLe] using hab
  · exact List.mergeSort_perm navs dateLe

end SIPAdvisor
